import Mathlib

/-!
Shallow embedding of the `update-checker` repository (two AWS Lambda
handlers, `src/aws/lambda/update-checker.py` and
`src/aws/lambda/line-webhook-handler.py`) and proofs about the claims of
its specification.

External library calls (HTTP fetch, BeautifulSoup, DynamoDB, the LINE
SDK, Bedrock) are modelled by explicit outcome parameters: an
environment record says what each external call would return or whether
it would raise.  The handlers' own control flow — every branch, every
try/except, every early return — is translated line by line from the
Python source.  `json.dumps` encoding of response bodies is dropped (a
body is the string handed to `json.dumps`), and timestamps written by
`save_patch_info` are abstracted away since no claim mentions them.
-/

namespace UpdateChecker

/-- Record produced by `scrape_latest_update_info` in
`update-checker.py` (dict with keys date, title, anchor_id, url). -/
structure PatchInfo where
  date : String
  title : String
  anchor_id : String
  url : String
deriving Repr, DecidableEq

/-- Result of the three `find` calls inside the located patch container:
`date_element.text.strip()` when the date div exists, the stripped title
text when the h3 exists, and the `id` attribute of the `div.anchor` when
that div exists and carries an `id` attribute (an attribute value is a
string; Python truthiness makes the empty string count as absent, which
is kept explicit in `scrape_latest_update_info` below). -/
structure PatchContainer where
  dateText : Option String
  titleText : Option String
  anchorId : Option String
deriving Repr, DecidableEq

/-- Result of parsing the fetched HTML: the first
`div.PatchNotes-live` container in document order if any, and the first
`div.PatchNotes-patch` container if any. -/
structure ParsedHtml where
  live : Option PatchContainer
  patch : Option PatchContainer
deriving Repr, DecidableEq

/-- Container selection of `scrape_latest_update_info`: take the
`PatchNotes-live` find, and if that was falsy fall back to the
`PatchNotes-patch` find. -/
def findContainer (h : ParsedHtml) : Option PatchContainer :=
  match h.live with
  | some c => some c
  | none => h.patch

/-- Placeholder used when the date div is missing. -/
def datePlaceholder : String := "日付不明"

/-- Placeholder used when the title h3 is missing. -/
def titlePlaceholder : String := "タイトル不明"

/-- Placeholder used when the anchor div or its id attribute is missing
(or the id attribute is the empty string, which is falsy in Python). -/
def anchorPlaceholder : String := "アンカーID不明"

/-- The extraction part of `scrape_latest_update_info`
(update-checker.py lines 38-60), applied to the parsed HTML: pick the
container, default each missing field to its placeholder, and append
`#anchor_id` to the url exactly when the computed anchor id differs
from the placeholder string.  Returns `none` when neither container is
present (the Python function falls off the end and returns None). -/
def scrape_latest_update_info (url : String) (h : ParsedHtml) : Option PatchInfo :=
  match findContainer h with
  | none => none
  | some c =>
    let patch_date := match c.dateText with
      | some s => s
      | none => datePlaceholder
    let patch_title := match c.titleText with
      | some s => s
      | none => titlePlaceholder
    let patch_anchor_id := match c.anchorId with
      | some s => if s ≠ "" then s else anchorPlaceholder
      | none => anchorPlaceholder
    let patch_url := if patch_anchor_id ≠ anchorPlaceholder
      then url ++ "#" ++ patch_anchor_id
      else url
    some { date := patch_date, title := patch_title,
           anchor_id := patch_anchor_id, url := patch_url }

/-- The inline change comparison of `lambda_handler`
(update-checker.py lines 112-119): changed when there is no previous
item, or when the dates differ, or when the anchor ids differ. -/
def has_changed_of (previous : Option PatchInfo) (current : PatchInfo) : Bool :=
  match previous with
  | none => true
  | some p => decide (p.date ≠ current.date) || decide (p.anchor_id ≠ current.anchor_id)

/-- Environment variables read at module load in `update-checker.py`
(each is `os.environ.get(...)`, so `none` models an unset variable; the
empty string is set but falsy). -/
structure CheckerConfig where
  line_channel_access_token : Option String
  line_to_id : Option String
  target_scraping_url : Option String
  dynamodb_table_name : Option String
deriving Repr, DecidableEq

/-- Python truthiness of an optional string: `None` and `""` are falsy. -/
def truthy : Option String → Bool
  | none => false
  | some s => s ≠ ""

/-- Outcomes of the external calls made during one invocation of the
update-checker handler: the fetch+parse of the target page
(`requests.get` + `raise_for_status` + BeautifulSoup; `Except.error`
models a raised exception), the current content of the DynamoDB item
(`stored`), and whether the store read, the store write, and the LINE
push raise. -/
structure CheckerEnv where
  fetch : Except String ParsedHtml
  stored : Option PatchInfo
  getFails : Bool
  putFails : Bool
  pushFails : Bool

/-- Pipeline steps observable during one update-checker invocation. -/
inductive Ev where
  | scrape
  | storeRead
  | compare
  | storeWrite
  | notify
deriving Repr, DecidableEq, BEq

/-- How a Python function invocation ends: a returned value (`none`
models Python `None`, `some (status, body)` a dict
`{statusCode, body}`), or an exception that escapes the function. -/
inductive LambdaResult where
  | ret : Option (Nat × String) → LambdaResult
  | raised : String → LambdaResult
deriving Repr, DecidableEq

/-- Observable outcome of one update-checker invocation: the handler's
result, the pipeline steps performed in order, and the stored record
afterwards (timestamp field abstracted away). -/
structure CheckerOutcome where
  result : LambdaResult
  trace : List Ev
  store : Option PatchInfo
deriving Repr, DecidableEq

/-- Body of the failure result when scraping raises. -/
def scrapeFailBody : String := "スクレイピングに失敗しました．"

/-- Body of the failure result when the store read raises. -/
def getFailBody : String := "前回のパッチ情報の取得に失敗しました．"

/-- Body of the failure result when the store write raises. -/
def saveFailBody : String := "パッチ情報の保存に失敗しました．"

/-- Body of the failure result when the LINE push raises (note the
full-width period differs from the other three bodies, as in the
source). -/
def notifyFailBody : String := "メッセージ送信に失敗しました。"

/-- The `if has_changed:` block of `lambda_handler`
(update-checker.py lines 121-145): `save_patch_info` inside try/except,
then `send_line_message` inside try/except.  When `patch_info` is
`None` the dict built by `save_patch_info` calls `update(None)`, which
raises TypeError inside the try, so the save fails regardless of the
table.  On success of both, execution falls off the end of the handler
and Python returns `None`. -/
def runChangedBlock (env : CheckerEnv) (tr : List Ev)
    (patch_info : Option PatchInfo) : CheckerOutcome :=
  match patch_info with
  | none =>
    { result := .ret (some (500, saveFailBody)), trace := tr ++ [.storeWrite],
      store := env.stored }
  | some cur =>
    if env.putFails then
      { result := .ret (some (500, saveFailBody)), trace := tr ++ [.storeWrite],
        store := env.stored }
    else if env.pushFails then
      { result := .ret (some (500, notifyFailBody)),
        trace := tr ++ [.storeWrite, .notify], store := some cur }
    else
      { result := .ret none, trace := tr ++ [.storeWrite, .notify],
        store := some cur }

/-- Value of the url argument `scrape_latest_update_info` is called
with: the TARGET_SCRAPING_URL environment variable, or the empty
string when unset (abstracting the string Python would build from
`None`). -/
def configUrl (cfg : CheckerConfig) : String :=
  match cfg.target_scraping_url with
  | some u => u
  | none => ""

/-- The update-checker `lambda_handler` (update-checker.py lines
85-145).  The environment-variable check at the top only prints an
error message and does not return, so `cfg` never affects the result;
the parameter is kept to state that fact.  Scrape and store read are
each wrapped in try/except returning a 500 result.  The change
comparison is NOT inside a try: when `patch_info` is `None` and a
previous item exists, `patch_info["date"]` raises an uncaught
TypeError. -/
def lambda_handler (cfg : CheckerConfig) (env : CheckerEnv) : CheckerOutcome :=
  match env.fetch with
  | .error _ =>
    { result := .ret (some (500, scrapeFailBody)), trace := [.scrape],
      store := env.stored }
  | .ok html =>
    let patch_info := scrape_latest_update_info (configUrl cfg) html
    if env.getFails then
      { result := .ret (some (500, getFailBody)), trace := [.scrape, .storeRead],
        store := env.stored }
    else
      let previous_patch_info := env.stored
      match previous_patch_info, patch_info with
      | some _, none =>
        { result := .raised "TypeError: NoneType object is not subscriptable",
          trace := [.scrape, .storeRead, .compare], store := env.stored }
      | none, pi =>
        runChangedBlock env [.scrape, .storeRead, .compare] pi
      | some p, some cur =>
        if has_changed_of (some p) cur then
          runChangedBlock env [.scrape, .storeRead, .compare] (some cur)
        else
          { result := .ret none, trace := [.scrape, .storeRead, .compare],
            store := env.stored }

end UpdateChecker

namespace LineWebhook

/-- Environment variables read at module load in
`line-webhook-handler.py`. -/
structure WebhookConfig where
  line_channel_access_token : Option String
  line_channel_secret : Option String
  bedrock_model_id : Option String
  bedrock_region : Option String
deriving Repr, DecidableEq

/-- Outcome of `bedrock_runtime.invoke_model` plus the parsing of its
response body in `invoke_haiku`: `raises` models any exception from the
call or the body read, `responds none` a parsed JSON body without a
`content` key, and `responds (some items)` a body whose `content` list
holds `items`, each item carrying an optional `text` field. -/
inductive BedrockOutcome where
  | raises : String → BedrockOutcome
  | responds : Option (List (Option String)) → BedrockOutcome
deriving Repr, DecidableEq

/-- Fixed apology text substituted for any exception inside
`invoke_haiku`. -/
def apology : String := "申し訳ありません、現在AIとの通信に問題が発生しています。"

/-- Default text when the response has no generated text. -/
def noResponseText : String := "（応答がありませんでした）"

/-- The function `invoke_haiku` (line-webhook-handler.py lines 20-59),
as a function of the Bedrock call's outcome.  The whole body is one
try/except returning the apology string on ANY exception; on a
response, `response_body.get('content', [{}])[0].get('text', default)`
defaults to `[{}]` when `content` is absent (whose first element has no
`text`), raises IndexError inside the try when `content` is the empty
list (hence apology), and otherwise reads the first item's `text`,
defaulting when absent. -/
def invoke_haiku (outcome : BedrockOutcome) : String :=
  match outcome with
  | .raises _ => apology
  | .responds none => noResponseText
  | .responds (some []) => apology
  | .responds (some (item :: _)) =>
    match item with
    | some t => t
    | none => noResponseText

/-- Webhook events parsed from the request body by the LINE SDK: a
`MessageEvent` with `TextMessageContent` (handled by the registered
`handle_message`), or any other event kind (no handler registered, so
it is skipped). -/
inductive WEvent where
  | message (text : String) (replyToken : String)
  | other
deriving Repr, DecidableEq

/-- Steps observable during one webhook invocation. -/
inductive WEv where
  | sigVerify
  | modelInvoke
  | replySend
deriving Repr, DecidableEq, BEq

/-- Outcomes of the external dependencies of one webhook invocation:
`hmac secret body` models the base64 HMAC-SHA256 signature the SDK
computes over the raw body with the channel secret, `bedrock` the model
call's outcome, and `replyFails` whether `reply_message` raises. -/
structure WebhookEnv where
  hmac : String → String → String
  bedrock : BedrockOutcome
  replyFails : Bool

/-- An inbound webhook request: the value of the `x-line-signature`
header if present, the raw body, and the events the SDK parses out of
that body. -/
structure WebhookRequest where
  signatureHeader : Option String
  body : String
  events : List WEvent

/-- Observable outcome of one webhook invocation: the returned
`{statusCode, body}` dict, the steps performed in order, and the texts
of the replies sent to the user. -/
structure WebhookOutcome where
  result : Nat × String
  trace : List WEv
  replies : List String
deriving Repr, DecidableEq

/-- Event dispatch performed by `handler.handle` after signature
verification: for each `message` event the registered `handle_message`
runs (line-webhook-handler.py lines 90-107): it invokes the model and
then sends the reply; if `reply_message` raises, the exception escapes
`handler.handle` (aborting the remaining events).  Other event kinds
have no registered handler and are skipped.  Returns the steps, the
replies sent, and whether an exception escaped. -/
def processEvents (env : WebhookEnv) : List WEvent → List WEv × List String × Bool
  | [] => ([], [], false)
  | .other :: rest => processEvents env rest
  | .message _ _ :: rest =>
    if env.replyFails then
      ([.modelInvoke], [], true)
    else
      let (tr, rs, ab) := processEvents env rest
      (.modelInvoke :: .replySend :: tr, invoke_haiku env.bedrock :: rs, ab)

/-- Conjunction of the three environment-variable truthiness checks the
webhook handler performs (`all([...])` in line-webhook-handler.py line
63; BEDROCK_REGION is not among them). -/
def webhookConfigOk (cfg : WebhookConfig) : Bool :=
  UpdateChecker.truthy cfg.line_channel_access_token
    && UpdateChecker.truthy cfg.line_channel_secret
    && UpdateChecker.truthy cfg.bedrock_model_id

/-- Secret the SDK's `WebhookHandler` was constructed with: the
LINE_CHANNEL_SECRET environment variable, or the empty string when
unset. -/
def channelSecret (cfg : WebhookConfig) : String :=
  match cfg.line_channel_secret with
  | some s => s
  | none => ""

/-- The webhook `lambda_handler` (line-webhook-handler.py lines
61-87).  Checks `all([access_token, secret, model_id])` (the region is
NOT checked) and returns 500 on failure; returns 400 when the
`x-line-signature` header is absent or falsy; then `handler.handle`
verifies the signature — raising `InvalidSignatureError` (caught,
returning 400) when it differs from the HMAC of the body — and
dispatches the events; any other exception from event handling is
caught and returns 500; otherwise returns 200. -/
def lambda_handler (cfg : WebhookConfig) (env : WebhookEnv)
    (req : WebhookRequest) : WebhookOutcome :=
  if ¬webhookConfigOk cfg then
    { result := (500, "Missing environment variables"), trace := [], replies := [] }
  else
    match req.signatureHeader with
    | none =>
      { result := (400, "Missing x-line-signature header"), trace := [], replies := [] }
    | some sig =>
      if sig = "" then
        { result := (400, "Missing x-line-signature header"), trace := [], replies := [] }
      else
        if env.hmac (channelSecret cfg) req.body ≠ sig then
          { result := (400, "Invalid signature"), trace := [.sigVerify], replies := [] }
        else
          let (tr, rs, ab) := processEvents env req.events
          if ab then
            { result := (500, "Error handling event"), trace := .sigVerify :: tr,
              replies := rs }
          else
            { result := (200, "OK"), trace := .sigVerify :: tr, replies := rs }

end LineWebhook

namespace UpdateChecker

/-- C2: the change detector reports a change if and only if the
previous record is absent, or the two records differ in their `date`
field, or they differ in their `anchor_id` field; consequently two
records equal on (date, anchor_id) but with different `title` or `url`
fields are reported as unchanged. -/
theorem changeDetector_iff (previous : Option PatchInfo) (current : PatchInfo) :
    has_changed_of previous current = true ↔
      previous = none ∨ ∃ p, previous = some p ∧
        (p.date ≠ current.date ∨ p.anchor_id ≠ current.anchor_id) := by
  cases previous with
  | none => simp [has_changed_of]
  | some p => simp [has_changed_of]

/-- Scrape input whose anchor div carries the id attribute value that
happens to equal the extractor's own placeholder string. -/
def sentinelAnchorHtml : ParsedHtml :=
  { live := some { dateText := some "2024年1月1日", titleText := some "パッチノート",
                   anchorId := some "アンカーID不明" },
    patch := none }

/-- C8, counterexample: on an HTML input whose patch container holds an
anchor with id attribute "アンカーID不明" (the extractor's placeholder
string), an anchor id IS found, yet the produced url is the base url
unchanged rather than the base url with "#" and the anchor id
appended — so the claim is false as stated. -/
theorem scrape_url_claim_counterexample :
    (findContainer sentinelAnchorHtml).bind PatchContainer.anchorId
        = some "アンカーID不明"
    ∧ (scrape_latest_update_info "https://example.com" sentinelAnchorHtml).map
        PatchInfo.url = some "https://example.com"
    ∧ some "https://example.com"
        ≠ some ("https://example.com" ++ "#" ++ "アンカーID不明") := by
  refine ⟨rfl, rfl, by decide⟩

/-- C8, amended: when the extractor finds a patch container, the
output url equals the base url with "#" and the anchor id appended
exactly when an anchor id was found that is nonempty and differs from
the placeholder string "アンカーID不明"; otherwise (no anchor div, no id
attribute, empty id, or id equal to the placeholder) the output url is
the base url unchanged. -/
theorem scrape_url_amended (url : String) (h : ParsedHtml) (c : PatchContainer)
    (hc : findContainer h = some c) :
    ∃ r, scrape_latest_update_info url h = some r ∧
      (match c.anchorId with
       | some s =>
          if s ≠ "" ∧ s ≠ anchorPlaceholder then r.url = url ++ "#" ++ s
          else r.url = url
       | none => r.url = url) := by
  refine ⟨_, by rw [scrape_latest_update_info, hc], ?_⟩
  cases hs : c.anchorId with
  | none => simp
  | some s =>
    by_cases he : s = ""
    · simp [he, anchorPlaceholder]
    · by_cases hp : s = anchorPlaceholder
      · simp [hs, he, hp]
      · simp [hs, he, hp]

/-- C8 witness: the amended theorem applied to a concrete input with a
found, nonempty, non-placeholder anchor id. -/
theorem scrape_url_amended_witness :
    ∃ r, scrape_latest_update_info "https://example.com"
        { live := some { dateText := some "d", titleText := some "t",
                         anchorId := some "p1" }, patch := none }
        = some r ∧
      (match (some "p1" : Option String) with
       | some s =>
          if s ≠ "" ∧ s ≠ anchorPlaceholder
          then r.url = "https://example.com" ++ "#" ++ s
          else r.url = "https://example.com"
       | none => r.url = "https://example.com") :=
  scrape_url_amended "https://example.com"
    { live := some { dateText := some "d", titleText := some "t",
                     anchorId := some "p1" }, patch := none }
    { dateText := some "d", titleText := some "t", anchorId := some "p1" }
    rfl

/-- Fully populated configuration (all four environment variables
set). -/
def fullCfg : CheckerConfig :=
  { line_channel_access_token := some "token", line_to_id := some "U1",
    target_scraping_url := some "https://example.com",
    dynamodb_table_name := some "overwatch_patch_info" }

/-- Environment in which the page has no patch container (the
extractor yields `None`) while the table holds a previous record and
every external call succeeds. -/
def nullRecordEnv : CheckerEnv :=
  { fetch := .ok { live := none, patch := none },
    stored := some { date := "2024-01-01", title := "旧タイトル",
                     anchor_id := "patch1", url := "https://example.com#patch1" },
    getFails := false, putFails := false, pushFails := false }

/-- C1: evaluation at the failing input.  When
`scrape_latest_update_info` returns `None` (page without a
`PatchNotes-live` or `PatchNotes-patch` container) and a previous
stored record exists, the handler's change comparison subscripts
`None` outside any try/except, so the invocation ends in an uncaught
TypeError instead of a structured result — contradicting the claim
that every pipeline step's failure is caught and converted. -/
theorem nullRecord_with_previous_raises :
    (lambda_handler fullCfg nullRecordEnv).result
      = .raised "TypeError: NoneType object is not subscriptable" := rfl

/-- C5: when the store read succeeds and the stored record agrees with
the newly extracted record on both `date` and `anchor_id`, the handler
performs no store write and no notification, leaves the stored state
unchanged, and returns `None`. -/
theorem unchanged_no_write_no_notify (cfg : CheckerConfig) (env : CheckerEnv)
    (html : ParsedHtml) (p cur : PatchInfo)
    (hf : env.fetch = .ok html)
    (hg : env.getFails = false)
    (hs : scrape_latest_update_info (configUrl cfg) html = some cur)
    (hp : env.stored = some p)
    (hd : p.date = cur.date)
    (ha : p.anchor_id = cur.anchor_id) :
    (lambda_handler cfg env).result = .ret none
    ∧ (lambda_handler cfg env).store = env.stored
    ∧ Ev.storeWrite ∉ (lambda_handler cfg env).trace
    ∧ Ev.notify ∉ (lambda_handler cfg env).trace := by
  have hch : has_changed_of (some p) cur = false := by
    simp [has_changed_of, hd, ha]
  simp [lambda_handler, hf, hg, hs, hp, hch]

/-- Parsed page whose container matches the record stored in
`matchedEnv` on date and anchor id but differs in title. -/
def matchedHtml : ParsedHtml :=
  { live := some { dateText := some "2024-01-01", titleText := some "新タイトル",
                   anchorId := some "patch1" },
    patch := none }

/-- Environment whose stored record agrees with the extraction from
`matchedHtml` on (date, anchor_id). -/
def matchedEnv : CheckerEnv :=
  { fetch := .ok matchedHtml,
    stored := some { date := "2024-01-01", title := "旧タイトル",
                     anchor_id := "patch1", url := "https://example.com#patch1" },
    getFails := false, putFails := false, pushFails := false }

/-- C5 witness: the theorem applied to a concrete matching stored
record. -/
theorem unchanged_no_write_no_notify_witness :
    (lambda_handler fullCfg matchedEnv).result = .ret none :=
  (unchanged_no_write_no_notify fullCfg matchedEnv matchedHtml
    { date := "2024-01-01", title := "旧タイトル", anchor_id := "patch1",
      url := "https://example.com#patch1" }
    { date := "2024-01-01", title := "新タイトル", anchor_id := "patch1",
      url := "https://example.com#patch1" }
    rfl rfl rfl rfl rfl rfl).1

/-- C4: in every invocation in which a change is detected, the store
read precedes the change comparison in the step trace, any notification
attempt is preceded by the store write, and when the write succeeds but
the notification then fails the handler returns the notify-failure
result while the newly written record remains the stored state (no
rollback). -/
theorem changed_ordering_and_no_rollback (cfg : CheckerConfig) (env : CheckerEnv)
    (html : ParsedHtml) (cur : PatchInfo)
    (hf : env.fetch = .ok html)
    (hg : env.getFails = false)
    (hs : scrape_latest_update_info (configUrl cfg) html = some cur)
    (hc : has_changed_of env.stored cur = true) :
    (lambda_handler cfg env).trace.indexOf Ev.storeRead
        < (lambda_handler cfg env).trace.indexOf Ev.compare
    ∧ (Ev.notify ∈ (lambda_handler cfg env).trace →
        (lambda_handler cfg env).trace.indexOf Ev.storeWrite
          < (lambda_handler cfg env).trace.indexOf Ev.notify)
    ∧ (env.putFails = false → env.pushFails = true →
        (lambda_handler cfg env).result = .ret (some (500, notifyFailBody))
        ∧ (lambda_handler cfg env).store = some cur) := by
  have hrun : lambda_handler cfg env
      = runChangedBlock env [.scrape, .storeRead, .compare] (some cur) := by
    cases hstored : env.stored with
    | none => simp [lambda_handler, hf, hg, hs, hstored]
    | some p =>
      rw [hstored] at hc
      simp [lambda_handler, hf, hg, hs, hstored, hc]
  rw [hrun]
  cases hput : env.putFails with
  | true =>
    refine ⟨?_, ?_, ?_⟩
    · simp [runChangedBlock, hput]
      decide
    · simp [runChangedBlock, hput]
    · intro h
      simp at h
  | false =>
    cases hpush : env.pushFails with
    | true =>
      refine ⟨?_, ?_, ?_⟩
      · simp [runChangedBlock, hput, hpush]
        decide
      · simp [runChangedBlock, hput, hpush]
        decide
      · intro _ _
        simp [runChangedBlock, hput, hpush]
    | false =>
      refine ⟨?_, ?_, ?_⟩
      · simp [runChangedBlock, hput, hpush]
        decide
      · simp [runChangedBlock, hput, hpush]
        decide
      · intro _ h
        simp at h

/-- Environment for the notify-failure scenario: first run (no stored
record), successful scrape and write, failing push. -/
def notifyFailEnv : CheckerEnv :=
  { fetch := .ok matchedHtml, stored := none,
    getFails := false, putFails := false, pushFails := true }

/-- C4 witness: the theorem applied to the concrete notify-failure
environment. -/
theorem changed_ordering_and_no_rollback_witness :
    (lambda_handler fullCfg notifyFailEnv).trace.indexOf Ev.storeRead
        < (lambda_handler fullCfg notifyFailEnv).trace.indexOf Ev.compare
    ∧ (Ev.notify ∈ (lambda_handler fullCfg notifyFailEnv).trace →
        (lambda_handler fullCfg notifyFailEnv).trace.indexOf Ev.storeWrite
          < (lambda_handler fullCfg notifyFailEnv).trace.indexOf Ev.notify)
    ∧ (notifyFailEnv.putFails = false → notifyFailEnv.pushFails = true →
        (lambda_handler fullCfg notifyFailEnv).result
          = .ret (some (500, notifyFailBody))
        ∧ (lambda_handler fullCfg notifyFailEnv).store
          = some { date := "2024-01-01", title := "新タイトル",
                   anchor_id := "patch1", url := "https://example.com#patch1" }) :=
  changed_ordering_and_no_rollback fullCfg notifyFailEnv matchedHtml
    { date := "2024-01-01", title := "新タイトル", anchor_id := "patch1",
      url := "https://example.com#patch1" }
    rfl rfl rfl rfl

/-- C10: the update-checker handler returns a structured
`{statusCode, body}` value only on failure paths — every returned
structured value has status 500 and one of the four failure bodies —
and every invocation that completes without an error (scrape succeeded
with a record, store read succeeded, and, when a change was detected,
write and push succeeded) returns `None`. -/
theorem structured_result_only_on_failure (cfg : CheckerConfig) (env : CheckerEnv) :
    (∀ s b, (lambda_handler cfg env).result = .ret (some (s, b)) →
      s = 500 ∧ (b = scrapeFailBody ∨ b = getFailBody ∨ b = saveFailBody
        ∨ b = notifyFailBody))
    ∧ (∀ html cur, env.fetch = .ok html →
        scrape_latest_update_info (configUrl cfg) html = some cur →
        env.getFails = false →
        (has_changed_of env.stored cur = true →
          env.putFails = false ∧ env.pushFails = false) →
        (lambda_handler cfg env).result = .ret none) := by
  obtain ⟨fetch, stored, getF, putF, pushF⟩ := env
  constructor
  · intro s b hres
    cases fetch with
    | error e =>
      simp [lambda_handler] at hres
      exact ⟨hres.1.symm, Or.inl hres.2.symm⟩
    | ok html =>
      cases getF with
      | true =>
        simp [lambda_handler] at hres
        exact ⟨hres.1.symm, Or.inr (Or.inl hres.2.symm)⟩
      | false =>
        cases hpi : scrape_latest_update_info (configUrl cfg) html with
        | none =>
          cases stored with
          | some p => simp [lambda_handler, hpi] at hres
          | none =>
            simp [lambda_handler, hpi, runChangedBlock] at hres
            exact ⟨hres.1.symm, Or.inr (Or.inr (Or.inl hres.2.symm))⟩
        | some cur =>
          cases stored with
          | none =>
            cases putF with
            | true =>
              simp [lambda_handler, hpi, runChangedBlock] at hres
              exact ⟨hres.1.symm, Or.inr (Or.inr (Or.inl hres.2.symm))⟩
            | false =>
              cases pushF with
              | true =>
                simp [lambda_handler, hpi, runChangedBlock] at hres
                exact ⟨hres.1.symm, Or.inr (Or.inr (Or.inr hres.2.symm))⟩
              | false => simp [lambda_handler, hpi, runChangedBlock] at hres
          | some p =>
            by_cases hch : has_changed_of (some p) cur = true
            · cases putF with
              | true =>
                simp [lambda_handler, hpi, hch, runChangedBlock] at hres
                exact ⟨hres.1.symm, Or.inr (Or.inr (Or.inl hres.2.symm))⟩
              | false =>
                cases pushF with
                | true =>
                  simp [lambda_handler, hpi, hch, runChangedBlock] at hres
                  exact ⟨hres.1.symm, Or.inr (Or.inr (Or.inr hres.2.symm))⟩
                | false =>
                  simp [lambda_handler, hpi, hch, runChangedBlock] at hres
            · simp [lambda_handler, hpi, hch] at hres
  · intro html cur hf hpi hg hok
    cases hg
    cases hf
    cases stored with
    | none =>
      obtain ⟨hput, hpush⟩ := hok rfl
      cases hput; cases hpush
      simp [lambda_handler, hpi, runChangedBlock]
    | some p =>
      by_cases hch : has_changed_of (some p) cur = true
      · obtain ⟨hput, hpush⟩ := hok hch
        cases hput; cases hpush
        simp [lambda_handler, hpi, hch, runChangedBlock]
      · simp [lambda_handler, hpi, hch]

/-- C10 witness: the success part of the theorem at a concrete
no-change invocation. -/
theorem structured_result_only_on_failure_witness :
    (lambda_handler fullCfg matchedEnv).result = .ret none :=
  (structured_result_only_on_failure fullCfg matchedEnv).2 matchedHtml
    { date := "2024-01-01", title := "新タイトル", anchor_id := "patch1",
      url := "https://example.com#patch1" }
    rfl rfl rfl (fun h => by simp [matchedEnv, has_changed_of] at h)

end UpdateChecker

namespace LineWebhook

/-- C9: with the required configuration present, a request whose
headers carry no `x-line-signature` entry is answered with HTTP 400
and the body "Missing x-line-signature header", with an empty step
trace (no signature verification, no model invocation) and no reply
sent. -/
theorem missing_signature_header_400 (cfg : WebhookConfig) (env : WebhookEnv)
    (req : WebhookRequest)
    (hcfg : webhookConfigOk cfg = true)
    (hsig : req.signatureHeader = none) :
    lambda_handler cfg env req
      = { result := (400, "Missing x-line-signature header"),
          trace := [], replies := [] } := by
  simp only [lambda_handler, webhookConfigOk] at hcfg ⊢
  rw [hsig, if_neg (by simp [hcfg])]

/-- Webhook configuration with every variable set. -/
def wFullCfg : WebhookConfig :=
  { line_channel_access_token := some "token", line_channel_secret := some "secret",
    bedrock_model_id := some "anthropic.claude-3-haiku-20240307-v1:0",
    bedrock_region := some "ap-northeast-1" }

/-- Webhook environment whose signature function is a fixed string,
whose model call raises, and whose reply send succeeds. -/
def wRaisingEnv : WebhookEnv :=
  { hmac := fun _ _ => "SIG", bedrock := .raises "AccessDeniedException",
    replyFails := false }

/-- C9 witness: the theorem applied to a concrete request without the
header. -/
theorem missing_signature_header_400_witness :
    lambda_handler wFullCfg wRaisingEnv
        { signatureHeader := none, body := "rawbody", events := [] }
      = { result := (400, "Missing x-line-signature header"),
          trace := [], replies := [] } :=
  missing_signature_header_400 wFullCfg wRaisingEnv
    { signatureHeader := none, body := "rawbody", events := [] } rfl rfl

/-- C7: with the required configuration present, a request whose
`x-line-signature` value differs from the HMAC of the raw body under
the channel secret is answered with HTTP 400 "Invalid signature", and
neither a model invocation nor a reply send occurs. -/
theorem invalid_signature_400 (cfg : WebhookConfig) (env : WebhookEnv)
    (req : WebhookRequest) (sig : String)
    (hcfg : webhookConfigOk cfg = true)
    (hsig : req.signatureHeader = some sig)
    (hne : sig ≠ "")
    (hmismatch : env.hmac (channelSecret cfg) req.body ≠ sig) :
    (lambda_handler cfg env req).result = (400, "Invalid signature")
    ∧ WEv.modelInvoke ∉ (lambda_handler cfg env req).trace
    ∧ WEv.replySend ∉ (lambda_handler cfg env req).trace
    ∧ (lambda_handler cfg env req).replies = [] := by
  simp only [lambda_handler, webhookConfigOk] at hcfg ⊢
  rw [hsig]
  rw [if_neg (by simp [hcfg])]
  simp [hne, hmismatch]

/-- C7 witness: the theorem applied to a concrete tampered request. -/
theorem invalid_signature_400_witness :
    (lambda_handler wFullCfg wRaisingEnv
        { signatureHeader := some "TAMPERED", body := "rawbody",
          events := [.message "こんにちは" "rtoken1"] }).result
      = (400, "Invalid signature")
    ∧ WEv.modelInvoke ∉ (lambda_handler wFullCfg wRaisingEnv
        { signatureHeader := some "TAMPERED", body := "rawbody",
          events := [.message "こんにちは" "rtoken1"] }).trace
    ∧ WEv.replySend ∉ (lambda_handler wFullCfg wRaisingEnv
        { signatureHeader := some "TAMPERED", body := "rawbody",
          events := [.message "こんにちは" "rtoken1"] }).trace
    ∧ (lambda_handler wFullCfg wRaisingEnv
        { signatureHeader := some "TAMPERED", body := "rawbody",
          events := [.message "こんにちは" "rtoken1"] }).replies = [] :=
  invalid_signature_400 wFullCfg wRaisingEnv
    { signatureHeader := some "TAMPERED", body := "rawbody",
      events := [.message "こんにちは" "rtoken1"] }
    "TAMPERED" rfl rfl (by decide) (by decide)

/-- C6: with the required configuration present, a valid signature, a
single text-message event, and a model invocation that raises, the
reply sent to the user is exactly the fixed apology string and the
handler still returns HTTP 200 to the platform. -/
theorem model_failure_apology_reply (cfg : WebhookConfig) (env : WebhookEnv)
    (req : WebhookRequest) (sig text tok errMsg : String)
    (hcfg : webhookConfigOk cfg = true)
    (hsig : req.signatureHeader = some sig)
    (hne : sig ≠ "")
    (hmatch : env.hmac (channelSecret cfg) req.body = sig)
    (hev : req.events = [.message text tok])
    (hbed : env.bedrock = .raises errMsg)
    (hreply : env.replyFails = false) :
    (lambda_handler cfg env req).replies = [apology]
    ∧ (lambda_handler cfg env req).result = (200, "OK") := by
  simp only [lambda_handler, webhookConfigOk] at hcfg ⊢
  rw [hsig]
  rw [if_neg (by simp [hcfg])]
  simp [hne, hmatch, hev, processEvents, hreply, invoke_haiku, hbed]

/-- C6 witness: the theorem applied to a concrete valid-signature
request whose model call raises. -/
theorem model_failure_apology_reply_witness :
    (lambda_handler wFullCfg wRaisingEnv
        { signatureHeader := some "SIG", body := "rawbody",
          events := [.message "最新情報は？" "rtoken2"] }).replies = [apology]
    ∧ (lambda_handler wFullCfg wRaisingEnv
        { signatureHeader := some "SIG", body := "rawbody",
          events := [.message "最新情報は？" "rtoken2"] }).result = (200, "OK") :=
  model_failure_apology_reply wFullCfg wRaisingEnv
    { signatureHeader := some "SIG", body := "rawbody",
      events := [.message "最新情報は？" "rtoken2"] }
    "SIG" "最新情報は？" "rtoken2" "AccessDeniedException"
    rfl rfl (by decide) rfl rfl rfl rfl

end LineWebhook

/-- Update-checker configuration whose LINE_CHANNEL_ACCESS_TOKEN (a
required value) is unset while the others are present. -/
def missingTokenCfg : UpdateChecker.CheckerConfig :=
  { line_channel_access_token := none, line_to_id := some "U1",
    target_scraping_url := some "https://example.com",
    dynamodb_table_name := some "overwatch_patch_info" }

/-- C3, counterexample: in the update-checker, a missing required
configuration value (the access token) does NOT produce a structured
failure result reporting the missing configuration and does NOT stop
the pipeline — the handler only prints, proceeds to scrape, and in
this no-change invocation even returns `None` (success). -/
theorem missing_config_claim_counterexample :
    UpdateChecker.truthy missingTokenCfg.line_channel_access_token = false
    ∧ (UpdateChecker.lambda_handler missingTokenCfg UpdateChecker.matchedEnv).result
        = .ret none
    ∧ UpdateChecker.Ev.scrape
        ∈ (UpdateChecker.lambda_handler missingTokenCfg UpdateChecker.matchedEnv).trace := by
  refine ⟨rfl, rfl, ?_⟩
  show UpdateChecker.Ev.scrape ∈
    [UpdateChecker.Ev.scrape, UpdateChecker.Ev.storeRead, UpdateChecker.Ev.compare]
  exact List.mem_cons_self _ _

/-- C3, amended: in the webhook handler a missing required
configuration value (access token, shared secret, or model identifier)
yields the structured 500 "Missing environment variables" result with
no further steps and no reply; the update-checker, by contrast, only
logs missing configuration and proceeds with the pipeline — every
invocation performs the scrape step first regardless of
configuration. -/
theorem missing_config_behavior :
    (∀ (cfg : LineWebhook.WebhookConfig) (env : LineWebhook.WebhookEnv)
        (req : LineWebhook.WebhookRequest),
      LineWebhook.webhookConfigOk cfg = false →
      LineWebhook.lambda_handler cfg env req
        = { result := (500, "Missing environment variables"),
            trace := [], replies := [] })
    ∧ (∀ (cfg : UpdateChecker.CheckerConfig) (env : UpdateChecker.CheckerEnv),
      (UpdateChecker.lambda_handler cfg env).trace.head?
        = some UpdateChecker.Ev.scrape) := by
  constructor
  · intro cfg env req h
    simp [LineWebhook.lambda_handler, h]
  · intro cfg env
    obtain ⟨fetch, stored, getF, putF, pushF⟩ := env
    cases fetch with
    | error e => rfl
    | ok html =>
      cases getF with
      | true => rfl
      | false =>
        cases hpi : UpdateChecker.scrape_latest_update_info
            (UpdateChecker.configUrl cfg) html with
        | none =>
          cases stored with
          | some p => simp [UpdateChecker.lambda_handler, hpi]
          | none =>
            simp [UpdateChecker.lambda_handler, hpi, UpdateChecker.runChangedBlock]
        | some cur =>
          cases stored with
          | none =>
            cases putF <;> cases pushF <;>
              simp [UpdateChecker.lambda_handler, hpi, UpdateChecker.runChangedBlock]
          | some p =>
            by_cases hch : UpdateChecker.has_changed_of (some p) cur = true
            · cases putF <;> cases pushF <;>
                simp [UpdateChecker.lambda_handler, hpi, hch,
                  UpdateChecker.runChangedBlock]
            · simp [UpdateChecker.lambda_handler, hpi, hch]

/-- Webhook configuration whose channel secret is unset. -/
def wMissingSecretCfg : LineWebhook.WebhookConfig :=
  { line_channel_access_token := some "token", line_channel_secret := none,
    bedrock_model_id := some "anthropic.claude-3-haiku-20240307-v1:0",
    bedrock_region := some "ap-northeast-1" }

/-- C3 witness: the webhook part of the amended theorem applied to a
configuration missing the channel secret. -/
theorem missing_config_behavior_witness :
    LineWebhook.lambda_handler wMissingSecretCfg LineWebhook.wRaisingEnv
        { signatureHeader := some "SIG", body := "rawbody", events := [] }
      = { result := (500, "Missing environment variables"),
          trace := [], replies := [] } :=
  missing_config_behavior.1 wMissingSecretCfg LineWebhook.wRaisingEnv
    { signatureHeader := some "SIG", body := "rawbody", events := [] } rfl
